import Mathlib

/-!
Verification development for the TinyG/Grbl G-code interpreter (`src/gcode.c`).

Shallow embedding conventions:
* C `double` values are embedded as `ℚ` wherever the program only performs
  field operations on decimal literals (parsing, modal state, targets), and as
  `ℝ` for the arc-geometry locals that involve `sqrt`/`atan` (`h_x2_div_d`,
  the radius-mode center offsets, the theta angles, the dispatched arc
  descriptor).  The IEEE `isnan` test on `-sqrt(4r²-x²-y²)/hypot(x,y)` is
  embedded as its exact real-arithmetic characterization: the expression is
  NaN iff the radicand is negative, or the radicand and `hypot` are both zero
  (`0/0`); i.e. iff `4r² - x² - y² < 0 ∨ (x = 0 ∧ y = 0 ∧ r = 0)`.
* C strings are `List Char`; the terminating NUL is not stored, and indexing
  past the end yields the NUL character (`charAt`), as for a C string.
* Calls to the external collaborators (`mc_line`, `mc_arc`, `mc_dwell`,
  `mc_go_home`, `spindle_run`, `spindle_stop`, `store_setting`,
  `dump_settings`) are recorded in order in a list of `GcAction`s.
* The numeric values of the `GCSTATUS_*` codes live in a header that is not
  part of the repository snapshot; the code itself only requires that
  `GCSTATUS_OK` is zero (it is branched on for truthiness) and that the error
  codes are nonzero and pairwise distinct, so they are modelled from the spec
  as 0,1,2,3,4.
-/

/-- `GCSTATUS_OK` status code. The code requires this to be `0`
(`if (gc.status_code)` truthiness tests). -/
def GCSTATUS_OK : ℕ := 0

/-- Modelled from the spec: `ExpectedCommandLetter` status; the exact numeric
value lives in a missing header, only `≠ 0` and distinctness matter. -/
def GCSTATUS_EXPECTED_COMMAND_LETTER : ℕ := 1

/-- Modelled from the spec: `BadNumberFormat` status. -/
def GCSTATUS_BAD_NUMBER_FORMAT : ℕ := 2

/-- Modelled from the spec: `UnsupportedStatement` status. -/
def GCSTATUS_UNSUPPORTED_STATEMENT : ℕ := 3

/-- Modelled from the spec: `FloatingPointError` status. -/
def GCSTATUS_FLOATING_POINT_ERROR : ℕ := 4

/-- `X_AXIS` index (from the standard axis header). -/
def X_AXIS : Fin 3 := 0

/-- `Y_AXIS` index. -/
def Y_AXIS : Fin 3 := 1

/-- `Z_AXIS` index. -/
def Z_AXIS : Fin 3 := 2

/-- Modelled from the spec: the inches→millimeters conversion factor
`INCHES_PER_MM` (defined in the missing `config.h`); the spec fixes it as
`25.4`. -/
def INCHES_PER_MM : ℚ := 254 / 10

/-- C `trunc` (round toward zero), on the embedded rationals, yielding the
integer the C code converts to. -/
def qtrunc (q : ℚ) : ℤ := if 0 ≤ q then ⌊q⌋ else ⌈q⌉

/-- `struct ParserState` (`gcode.c` lines 81-94), with `double` → `ℚ`,
`uint8_t` flags → `Bool`, the `position` array → `Fin 3 → ℚ` and the plane
axis indices → `Fin 3`. -/
structure GcState where
  status_code : ℕ
  motion_mode : ℕ
  inverse_feed_rate_mode : Bool
  inches_mode : Bool
  absolute_mode : Bool
  program_flow : ℕ
  spindle_direction : ℤ
  feed_rate : ℚ
  seek_rate : ℚ
  position : Fin 3 → ℚ
  tool : ℤ
  spindle_speed : ℤ
  plane_axis_0 : Fin 3
  plane_axis_1 : Fin 3
  plane_axis_2 : Fin 3

/-- `to_millimeters` (`gcode.c` lines 127-130): multiply by the conversion
factor in inches mode, pass through otherwise. -/
def to_millimeters (inches_mode : Bool) (value : ℚ) : ℚ :=
  if inches_mode then value * INCHES_PER_MM else value

/-- `gc_init()` (`gcode.c` lines 108-114): zero the state, load the default
feed/seek rates from the (external) settings divided by 60, select the XYZ
plane and set absolute mode.  The two rates are parameters because the
settings store is an external collaborator. -/
def gc_init (default_feed_rate default_seek_rate : ℚ) : GcState :=
  { status_code := 0
    motion_mode := 0
    inverse_feed_rate_mode := false
    inches_mode := false
    absolute_mode := true
    program_flow := 0
    spindle_direction := 0
    feed_rate := default_feed_rate / 60
    seek_rate := default_seek_rate / 60
    position := fun _ => 0
    tool := 0
    spindle_speed := 0
    plane_axis_0 := X_AXIS
    plane_axis_1 := Y_AXIS
    plane_axis_2 := Z_AXIS }

/-- Character at index `i` of a C string: past the end one reads the
terminating NUL. -/
def charAt (l : List Char) (i : ℕ) : Char := l.getD i (Char.ofNat 0)

/-- Accumulate a decimal digit string into a natural number. -/
def natOfDigits (ds : List Char) : ℕ :=
  ds.foldl (fun a c => 10 * a + (c.toNat - 48)) 0

/-- `strtod` as invoked by `read_double` (`gcode.c` lines 470-485), on the
decimal inputs the interpreter is specified to receive (optional sign, digits
with optional fraction, optional exponent; the hex/inf/nan forms of `strtod`
cannot occur in a G-code line per the source's input assumption).  Returns
`none` when no conversion is possible (`end == start`, reported as
`GCSTATUS_BAD_NUMBER_FORMAT` by `read_double`), otherwise the parsed value
and the number of characters consumed.  An exponent marker not followed by a
digit is not consumed, matching `strtod`'s longest-valid-prefix rule. -/
def parseNumber (l : List Char) : Option (ℚ × ℕ) :=
  let sgn : ℚ := if charAt l 0 = '-' then -1 else 1
  let n1 : ℕ := if charAt l 0 = '-' ∨ charAt l 0 = '+' then 1 else 0
  let l1 := l.drop n1
  let ip := l1.takeWhile Char.isDigit
  let l2 := l1.drop ip.length
  let fr : List Char := if charAt l2 0 = '.' then (l2.drop 1).takeWhile Char.isDigit else []
  let n3 : ℕ := if charAt l2 0 = '.' then 1 + fr.length else 0
  let l3 := l2.drop n3
  if ip.length + fr.length = 0 then none
  else
    let mant : ℚ := (natOfDigits ip : ℚ) + (natOfDigits fr : ℚ) / (10 : ℚ) ^ fr.length
    if charAt l3 0 = 'e' ∨ charAt l3 0 = 'E' then
      let en1 : ℕ := if charAt l3 1 = '-' ∨ charAt l3 1 = '+' then 1 else 0
      let ed := (l3.drop (1 + en1)).takeWhile Char.isDigit
      if ed.length = 0 then some (sgn * mant, n1 + ip.length + n3)
      else
        let ev : ℤ := (if charAt l3 1 = '-' then -1 else 1) * (natOfDigits ed : ℤ)
        let scale : ℚ := if 0 ≤ ev then (10 : ℚ) ^ ev.toNat else 1 / (10 : ℚ) ^ (-ev).toNat
        some (sgn * mant * scale, n1 + ip.length + n3 + 1 + en1 + ed.length)
    else some (sgn * mant, n1 + ip.length + n3)

/-- One scan of the line by repeated `next_statement` (`gcode.c` lines
453-468): yields the `(letter, value)` statements successfully produced, and
the status code `next_statement`/`read_double` FAILed with if the scan ended
on an error rather than at the end of the string.  Structural recursion on a
fuel bounded by the line length (each statement consumes at least its letter
character, so the fuel never runs out). -/
def tokenizeF : ℕ → List Char → List (Char × ℚ) × Option ℕ
  | 0, _ => ([], none)
  | _, [] => ([], none)
  | fuel + 1, c :: rest =>
    if 'A' ≤ c ∧ c ≤ 'Z' then
      match parseNumber rest with
      | none => ([], some GCSTATUS_BAD_NUMBER_FORMAT)
      | some (v, n) =>
        let t := tokenizeF fuel (rest.drop n)
        ((c, v) :: t.1, t.2)
    else ([], some GCSTATUS_EXPECTED_COMMAND_LETTER)

/-- Tokenize a whole line from a given start. -/
def tokenize (l : List Char) : List (Char × ℚ) × Option ℕ :=
  tokenizeF (l.length + 1) l

/-- The calls the interpreter makes against its external collaborators
(motion executor, spindle actuator, settings store), in program order.
The arc descriptor fields are real numbers (they involve `sqrt`/`atan`);
everything else stays rational. -/
inductive GcAction where
  | mc_line (x y z : ℚ) (rate : ℚ) (invert : Bool)
  | mc_arc (theta_start angular_travel radius depth : ℝ)
      (axis_0 axis_1 axis_2 : Fin 3) (rate : ℚ) (invert : Bool)
  | mc_dwell (ms : ℤ)
  | mc_go_home
  | spindle_run (direction : ℤ) (speed : ℤ)
  | spindle_stop
  | store_setting (idx val : ℚ)
  | dump_settings

/-- Is this action a motion-executor operation (line, arc, dwell, go-home)? -/
def GcAction.isMotion : GcAction → Bool
  | .mc_line _ _ _ _ _ => true
  | .mc_arc _ _ _ _ _ _ _ _ _ => true
  | .mc_dwell _ => true
  | .mc_go_home => true
  | _ => false

/-- Is this action a spindle-actuator operation (run or stop)? -/
def GcAction.isSpindle : GcAction → Bool
  | .spindle_run _ _ => true
  | .spindle_stop => true
  | _ => false

/-- Is this action an arc trace (`mc_arc`)? -/
def GcAction.isArc : GcAction → Bool
  | .mc_arc _ _ _ _ _ _ _ _ _ => true
  | _ => false

/-- Is this action a settings-store write (`store_setting`)? -/
def GcAction.isStore : GcAction → Bool
  | .store_setting _ _ => true
  | _ => false

/-- Accumulator for pass 1: the mutated state plus the per-line locals
`next_action` and `absolute_override`. -/
structure P1Acc where
  gc : GcState
  next_action : ℕ
  absolute_override : Bool

/-- One iteration of the pass-1 `switch` (`gcode.c` lines 208-244): `G` and
`M` statements mutate the modal state (FAILing with
`GCSTATUS_UNSUPPORTED_STATEMENT` on an unknown code), `T` sets the tool, and
every other letter is ignored by pass 1. -/
def applyP1Token (a : P1Acc) (t : Char × ℚ) : P1Acc :=
  let iv : ℤ := qtrunc t.2
  if t.1 = 'G' then
    if iv = 0 then { a with gc := { a.gc with motion_mode := 0 } }
    else if iv = 1 then { a with gc := { a.gc with motion_mode := 1 } }
    else if iv = 2 then { a with gc := { a.gc with motion_mode := 2 } }
    else if iv = 3 then { a with gc := { a.gc with motion_mode := 3 } }
    else if iv = 4 then { a with next_action := 1 }
    else if iv = 17 then
      { a with gc := { a.gc with plane_axis_0 := X_AXIS, plane_axis_1 := Y_AXIS, plane_axis_2 := Z_AXIS } }
    else if iv = 18 then
      { a with gc := { a.gc with plane_axis_0 := X_AXIS, plane_axis_1 := Z_AXIS, plane_axis_2 := Y_AXIS } }
    else if iv = 19 then
      { a with gc := { a.gc with plane_axis_0 := Y_AXIS, plane_axis_1 := Z_AXIS, plane_axis_2 := X_AXIS } }
    else if iv = 20 then { a with gc := { a.gc with inches_mode := true } }
    else if iv = 21 then { a with gc := { a.gc with inches_mode := false } }
    else if iv = 28 ∨ iv = 30 then { a with next_action := 2 }
    else if iv = 53 then { a with absolute_override := true }
    else if iv = 80 then { a with gc := { a.gc with motion_mode := 4 } }
    else if iv = 90 then { a with gc := { a.gc with absolute_mode := true } }
    else if iv = 91 then { a with gc := { a.gc with absolute_mode := false } }
    else if iv = 93 then { a with gc := { a.gc with inverse_feed_rate_mode := true } }
    else if iv = 94 then { a with gc := { a.gc with inverse_feed_rate_mode := false } }
    else { a with gc := { a.gc with status_code := GCSTATUS_UNSUPPORTED_STATEMENT } }
  else if t.1 = 'M' then
    if iv = 0 ∨ iv = 1 then { a with gc := { a.gc with program_flow := 1 } }
    else if iv = 2 ∨ iv = 30 ∨ iv = 60 then { a with gc := { a.gc with program_flow := 2 } }
    else if iv = 3 then { a with gc := { a.gc with spindle_direction := 1 } }
    else if iv = 4 then { a with gc := { a.gc with spindle_direction := -1 } }
    else if iv = 5 then { a with gc := { a.gc with spindle_direction := 0 } }
    else { a with gc := { a.gc with status_code := GCSTATUS_UNSUPPORTED_STATEMENT } }
  else if t.1 = 'T' then { a with gc := { a.gc with tool := qtrunc t.2 } }
  else a

/-- Pass 1 (`gcode.c` lines 206-248): apply each statement in turn, breaking
out as soon as the status code becomes nonzero; when the statements are
exhausted the status the tokenizer ended with (if any) is FAILed, exactly as
the final `next_statement` call of the `while` loop does. -/
def pass1 : List (Char × ℚ) → Option ℕ → P1Acc → P1Acc
  | [], e, a =>
    { a with gc := { a.gc with status_code := match e with
        | some s => s
        | none => a.gc.status_code } }
  | t :: ts, e, a =>
    let a2 := applyP1Token a t
    if a2.gc.status_code ≠ 0 then a2 else pass1 ts e a2

/-- Accumulator for pass 2: the state plus the per-line locals `offset`,
`target`, `p`, `r`, `inverse_feed_rate` and `radius_mode`. -/
structure P2Acc where
  gc : GcState
  offset : Fin 3 → ℚ
  target : Fin 3 → ℚ
  p : ℚ
  r : ℚ
  inverse_feed_rate : ℚ
  radius_mode : Bool

/-- One iteration of the pass-2 `switch` (`gcode.c` lines 260-283): binds the
numeric parameters `F I J K P R S X Y Z` against the modal state; every other
letter is ignored by pass 2.  Nothing here can FAIL. -/
def applyP2Token (ao : Bool) (a : P2Acc) (t : Char × ℚ) : P2Acc :=
  let ucv := to_millimeters a.gc.inches_mode t.2
  if t.1 = 'F' then
    if a.gc.inverse_feed_rate_mode then { a with inverse_feed_rate := ucv }
    else { a with gc := { a.gc with feed_rate := ucv / 60 } }
  else if t.1 = 'I' then { a with offset := Function.update a.offset 0 ucv }
  else if t.1 = 'J' then { a with offset := Function.update a.offset 1 ucv }
  else if t.1 = 'K' then { a with offset := Function.update a.offset 2 ucv }
  else if t.1 = 'P' then { a with p := t.2 }
  else if t.1 = 'R' then { a with r := ucv, radius_mode := true }
  else if t.1 = 'S' then { a with gc := { a.gc with spindle_speed := qtrunc t.2 } }
  else if t.1 = 'X' then
    if a.gc.absolute_mode ∨ ao then { a with target := Function.update a.target 0 ucv }
    else { a with target := Function.update a.target 0 (a.target 0 + ucv) }
  else if t.1 = 'Y' then
    if a.gc.absolute_mode ∨ ao then { a with target := Function.update a.target 1 ucv }
    else { a with target := Function.update a.target 1 (a.target 1 + ucv) }
  else if t.1 = 'Z' then
    if a.gc.absolute_mode ∨ ao then { a with target := Function.update a.target 2 ucv }
    else { a with target := Function.update a.target 2 (a.target 2 + ucv) }
  else a

/-- Pass 2 (`gcode.c` lines 255-283): fold the statements over the
accumulator (the loop body cannot FAIL, so no early exit is possible). -/
def pass2 (ao : Bool) (ts : List (Char × ℚ)) (a : P2Acc) : P2Acc :=
  ts.foldl (applyP2Token ao) a

/-- C `hypot(x, y)`: the euclidean norm `sqrt(x² + y²)`. -/
noncomputable def rhypot (x y : ℝ) : ℝ := Real.sqrt (x * x + y * y)

/-- `theta(x, y)` (`gcode.c` lines 137-151): angle in radians of deviance from
the positive y axis, computed as `atan(x/|y|)` folded by the sign of `y`.
(At `y = 0` the C code divides by zero; that corner feeds `atan(±inf) = ±π/2`
in IEEE while the embedding's convention `x/0 = 0` gives `atan 0 = 0` — none
of the verified claims depends on that corner.) -/
noncomputable def gcTheta (x y : ℝ) : ℝ :=
  let t := Real.arctan (x / |y|)
  if 0 < y then t
  else if 0 < t then Real.pi - t
  else -Real.pi - t

/-- `h_x2_div_d` of the radius-mode arc solver (`gcode.c` lines 367, 372,
395): `-sqrt(4r² - x² - y²)/hypot(x, y)`, negated when the arc is
counterclockwise, and negated again when the supplied radius is negative. -/
noncomputable def h_x2_div_d (r x y : ℚ) (ccw : Bool) : ℝ :=
  let h0 : ℝ := -Real.sqrt (4 * (r : ℝ) * (r : ℝ) - (x : ℝ) * (x : ℝ) - (y : ℝ) * (y : ℝ)) /
    rhypot (x : ℝ) (y : ℝ)
  let h1 := if ccw then -h0 else h0
  if r < 0 then -h1 else h1

/-- Radius-mode center offset on the first in-plane axis
(`gcode.c` line 397): `(x - y·h_x2_div_d)/2`. -/
noncomputable def arcOffset0 (r x y : ℚ) (ccw : Bool) : ℝ :=
  ((x : ℝ) - (y : ℝ) * h_x2_div_d r x y ccw) / 2

/-- Radius-mode center offset on the second in-plane axis
(`gcode.c` line 398): `(y + x·h_x2_div_d)/2`. -/
noncomputable def arcOffset1 (r x y : ℚ) (ccw : Bool) : ℝ :=
  ((y : ℝ) + (x : ℝ) * h_x2_div_d r x y ccw) / 2

/-- The angular-travel computation (`gcode.c` lines 423-428): add a full turn
to `theta_end` if it is below `theta_start`, take the difference, and
subtract a full turn when the arc is counterclockwise. -/
noncomputable def angularTravelOf (theta_start theta_end : ℝ) (ccw : Bool) : ℝ :=
  let te := if theta_end < theta_start then theta_end + 2 * Real.pi else theta_end
  let travel := te - theta_start
  if ccw then travel - 2 * Real.pi else travel

/-- The arc trace and corrective line (`gcode.c` lines 416-438), given the
resolved (real-valued) in-plane center offsets `o0, o1`: compute
`theta_start`, `theta_end`, the angular travel, the radius recomputed from
the offsets, and the helical depth, and dispatch `mc_arc` followed by the
corrective `mc_line` to the exact target. -/
noncomputable def arcActs (gc : GcState) (target : Fin 3 → ℚ) (o0 o1 : ℝ)
    (ccw : Bool) (rate : ℚ) : List GcAction :=
  let a0 := gc.plane_axis_0
  let a1 := gc.plane_axis_1
  let a2 := gc.plane_axis_2
  let theta_start := gcTheta (-o0) (-o1)
  let theta_end := gcTheta ((target a0 : ℝ) - o0 - (gc.position a0 : ℝ))
    ((target a1 : ℝ) - o1 - (gc.position a1 : ℝ))
  let angular_travel := angularTravelOf theta_start theta_end ccw
  let radius := rhypot o0 o1
  let depth : ℝ := (target a2 : ℝ) - (gc.position a2 : ℝ)
  [GcAction.mc_arc theta_start angular_travel radius depth a0 a1 a2 rate
     gc.inverse_feed_rate_mode,
   GcAction.mc_line (target X_AXIS) (target Y_AXIS) (target Z_AXIS) rate
     gc.inverse_feed_rate_mode]

/-- The post-pass dispatch (`gcode.c` lines 290-447): update the spindle on
every line, then perform the one physical action selected by `next_action`
and `motion_mode`; in radius mode solve for the arc center first, FAILing
with `GCSTATUS_FLOATING_POINT_ERROR` (and skipping the position commit) when
the IEEE computation of `h_x2_div_d` would be NaN.  On every other path the
parser position is committed to the target (`memcpy`, line 446) and the
(unchanged) status code is returned.  Entered only with `status_code = 0`. -/
noncomputable def dispatchPhase (gc : GcState) (target offset : Fin 3 → ℚ)
    (radius_mode : Bool) (r p inverse_feed_rate : ℚ) (next_action : ℕ) :
    GcState × ℕ × List GcAction :=
  let sacts : List GcAction :=
    if gc.spindle_direction ≠ 0 then
      [GcAction.spindle_run gc.spindle_direction gc.spindle_speed]
    else [GcAction.spindle_stop]
  let rate : ℚ := if gc.inverse_feed_rate_mode then inverse_feed_rate else gc.feed_rate
  let commit : List GcAction → GcState × ℕ × List GcAction := fun acts =>
    ({ gc with position := target }, gc.status_code, sacts ++ acts)
  match next_action with
  | 2 => commit [GcAction.mc_go_home]
  | 1 => commit [GcAction.mc_dwell (qtrunc (p * 1000))]
  | 0 =>
    if gc.motion_mode = 4 then commit []
    else if gc.motion_mode = 0 ∨ gc.motion_mode = 1 then
      commit [GcAction.mc_line (target X_AXIS) (target Y_AXIS) (target Z_AXIS)
        rate gc.inverse_feed_rate_mode]
    else if gc.motion_mode = 2 ∨ gc.motion_mode = 3 then
      let ccw := gc.motion_mode = 3
      if radius_mode then
        let x : ℚ := target gc.plane_axis_0 - gc.position gc.plane_axis_0
        let y : ℚ := target gc.plane_axis_1 - gc.position gc.plane_axis_1
        if 4 * r * r - x * x - y * y < 0 ∨ (x = 0 ∧ y = 0 ∧ r = 0) then
          ({ gc with status_code := GCSTATUS_FLOATING_POINT_ERROR },
           GCSTATUS_FLOATING_POINT_ERROR, sacts)
        else
          commit (arcActs gc target (arcOffset0 r x y ccw) (arcOffset1 r x y ccw) ccw rate)
      else
        commit (arcActs gc target ((offset gc.plane_axis_0 : ℚ) : ℝ)
          ((offset gc.plane_axis_1 : ℚ) : ℝ) ccw rate)
    else commit []
  | _ => commit []

/-- Outcome of the special-prefix handling before pass 1: when `early` is
true the call returns right away with `status` (for the early `return(...)`
statements of the `$` branch this is a literal that may differ from the
state's `status_code` field); otherwise interpretation continues with the
given cursor, `p` local and the actions recorded so far. -/
structure DollarRes where
  early : Bool
  gc : GcState
  status : ℕ
  counter : ℕ
  pVal : ℚ
  acts : List GcAction

/-- The block-delete and `$` prefix handling (`gcode.c` lines 182-203):
a leading `/` merely advances the cursor; a `$` line is a settings dump
(bare `$`) or a `$<index>=<value>` write.  A failed `read_double` FAILs the
status but the branch continues, exactly as in the source; and after a
successful `store_setting` the source does NOT return — control falls
through to the passes with the cursor at the end of the line. -/
def dollarPhase (l : List Char) (gc : GcState) : DollarRes :=
  let c0 : ℕ := if charAt l 0 = '/' then 1 else 0
  if charAt l 0 = '$' then
    if charAt l 1 = Char.ofNat 0 then
      { early := true, gc := gc, status := GCSTATUS_OK, counter := 1, pVal := 0,
        acts := [GcAction.dump_settings] }
    else
      -- read_double(textline, &counter, &p): on failure strtod has written 0
      -- to p, the status is FAILed and the counter does not move.
      let pr1 := parseNumber (l.drop 1)
      let pv : ℚ := (pr1.getD (0, 0)).1
      let g1 : GcState :=
        if pr1.isSome then gc else { gc with status_code := GCSTATUS_BAD_NUMBER_FORMAT }
      let c1 : ℕ := if pr1.isSome then 1 + (pr1.getD (0, 0)).2 else 1
      if charAt l c1 ≠ '=' then
        { early := true, gc := g1, status := GCSTATUS_UNSUPPORTED_STATEMENT,
          counter := c1 + 1, pVal := pv, acts := [] }
      else
        -- read_double(textline, &counter, &value)
        let pr2 := parseNumber (l.drop (c1 + 1))
        let vv : ℚ := (pr2.getD (0, 0)).1
        let g2 : GcState :=
          if pr2.isSome then g1 else { g1 with status_code := GCSTATUS_BAD_NUMBER_FORMAT }
        let c2 : ℕ := if pr2.isSome then c1 + 1 + (pr2.getD (0, 0)).2 else c1 + 1
        if charAt l c2 ≠ Char.ofNat 0 then
          { early := true, gc := g2, status := GCSTATUS_UNSUPPORTED_STATEMENT,
            counter := c2, pVal := pv, acts := [] }
        else
          { early := false, gc := g2, status := g2.status_code,
            counter := c2, pVal := pv,
            acts := [GcAction.store_setting pv vv] }
  else
    { early := false, gc := gc, status := gc.status_code, counter := c0, pVal := 0,
      acts := [] }

/-- FAIL with the status code the tokenizer's last `next_statement` call
reported, if it ended a scan on an error. -/
def applyTokErr (e : Option ℕ) (g : GcState) : GcState :=
  match e with
  | some s => { g with status_code := s }
  | none => g

/-- The two passes and the dispatch (`gcode.c` lines 205-447), entered after
the prefix handling with the cursor, the `p` local and the actions recorded
so far: pass 1 tokenizes from the cursor and applies the commands (returning
on any error); the cursor is then reset to 0, pass 2 tokenizes the whole
line again and binds the parameters (returning on any error); then the
dispatch runs. -/
noncomputable def mainPhase (l : List Char) (dp : DollarRes) :
    GcState × ℕ × List GcAction :=
  let t1 := tokenize (l.drop dp.counter)
  let a1 := pass1 t1.1 t1.2 { gc := dp.gc, next_action := 0, absolute_override := false }
  if a1.gc.status_code ≠ 0 then (a1.gc, a1.gc.status_code, dp.acts)
  else
    let t2 := tokenize l
    let acc := pass2 a1.absolute_override t2.1
      { gc := a1.gc, offset := fun _ => 0, target := a1.gc.position,
        p := dp.pVal, r := 0, inverse_feed_rate := -1, radius_mode := false }
    let g2 := applyTokErr t2.2 acc.gc
    if g2.status_code ≠ 0 then (g2, g2.status_code, dp.acts)
    else
      let d := dispatchPhase g2 acc.target acc.offset acc.radius_mode acc.r acc.p
        acc.inverse_feed_rate a1.next_action
      (d.1, d.2.1, dp.acts ++ d.2.2)

/-- `gc_execute_line` (`gcode.c` lines 157-448): reset the status, handle the
`(`, `/` and `$` prefixes, then run the two passes and the dispatch.
Returns the final state, the returned status code, and the collaborator
calls made, in order. -/
noncomputable def gc_execute_line (l : List Char) (gc0 : GcState) :
    GcState × ℕ × List GcAction :=
  let gc : GcState := { gc0 with status_code := GCSTATUS_OK }
  if charAt l 0 = '(' then (gc, gc.status_code, [])
  else
    let dp := dollarPhase l gc
    if dp.early then (dp.gc, dp.status, dp.acts)
    else mainPhase l dp


/-- The `G` codes recognized by pass 1 (`gcode.c` lines 211-227). -/
def recognizedG : List ℤ := [0, 1, 2, 3, 4, 17, 18, 19, 20, 21, 28, 30, 53, 80, 90, 91, 93, 94]

/-- The `M` codes recognized by pass 1 (`gcode.c` lines 234-238). -/
def recognizedM : List ℤ := [0, 1, 2, 30, 60, 3, 4, 5]

/-- A statement pass 1 applies without FAILing. -/
def p1StatementOk (u : Char × ℚ) : Prop :=
  (u.1 = 'G' → qtrunc u.2 ∈ recognizedG) ∧ (u.1 = 'M' → qtrunc u.2 ∈ recognizedM)

/-- The letter written on axis `i` of a `X`/`Y`/`Z` word
(`letter - 'X'` indexing of `gcode.c` line 277). -/
def axisChar : Fin 3 → Char := fun i => if i = 0 then 'X' else if i = 1 then 'Y' else 'Z'

/-- A word whose letter pass 2 either ignores (`G`) or treats as an axis
word: such words never touch the modal state inside pass 2. -/
def letterAllowedC6 (t : Char × ℚ) : Prop :=
  t.1 = 'G' ∨ t.1 = 'X' ∨ t.1 = 'Y' ∨ t.1 = 'Z'

/-- A word allowed on a pure linear-motion line: `G0`/`G1` or an axis word. -/
def tokenAllowedC6 (t : Char × ℚ) : Prop :=
  (t.1 = 'G' ∧ (qtrunc t.2 = 0 ∨ qtrunc t.2 = 1)) ∨ t.1 = 'X' ∨ t.1 = 'Y' ∨ t.1 = 'Z'

/-! ### Structural lemmas about the passes and the dispatch -/

theorem applyP1Token_position (a : P1Acc) (t : Char × ℚ) :
    (applyP1Token a t).gc.position = a.gc.position := by
  simp only [applyP1Token, apply_ite (fun x : P1Acc => x.gc.position), ite_self]

theorem pass1_position (ts : List (Char × ℚ)) (e : Option ℕ) (a : P1Acc) :
    (pass1 ts e a).gc.position = a.gc.position := by
  induction ts generalizing a with
  | nil => cases e <;> rfl
  | cons t ts ih =>
    show (if (applyP1Token a t).gc.status_code ≠ 0 then applyP1Token a t
      else pass1 ts e (applyP1Token a t)).gc.position = a.gc.position
    split_ifs with h
    · exact applyP1Token_position a t
    · rw [ih]; exact applyP1Token_position a t

theorem applyP2Token_position (ao : Bool) (a : P2Acc) (t : Char × ℚ) :
    (applyP2Token ao a t).gc.position = a.gc.position := by
  simp only [applyP2Token, apply_ite (fun x : P2Acc => x.gc.position), ite_self]

theorem applyP2Token_status (ao : Bool) (a : P2Acc) (t : Char × ℚ) :
    (applyP2Token ao a t).gc.status_code = a.gc.status_code := by
  simp only [applyP2Token, apply_ite (fun x : P2Acc => x.gc.status_code), ite_self]

theorem pass2_position (ao : Bool) (ts : List (Char × ℚ)) (a : P2Acc) :
    (pass2 ao ts a).gc.position = a.gc.position := by
  induction ts generalizing a with
  | nil => rfl
  | cons t ts ih =>
    show (pass2 ao ts (applyP2Token ao a t)).gc.position = a.gc.position
    rw [ih]; exact applyP2Token_position ao a t

theorem pass2_status (ao : Bool) (ts : List (Char × ℚ)) (a : P2Acc) :
    (pass2 ao ts a).gc.status_code = a.gc.status_code := by
  induction ts generalizing a with
  | nil => rfl
  | cons t ts ih =>
    show (pass2 ao ts (applyP2Token ao a t)).gc.status_code = a.gc.status_code
    rw [ih]; exact applyP2Token_status ao a t

/-- The dispatch either commits the target to `position` and returns the
incoming status code, or (radius-mode arc whose `h_x2_div_d` would be NaN)
leaves `position` untouched, returns `GCSTATUS_FLOATING_POINT_ERROR` and has
dispatched only the spindle update. -/
theorem dispatchPhase_cases (gc : GcState) (target offset : Fin 3 → ℚ)
    (rm : Bool) (r p ifr : ℚ) (na : ℕ) :
    ((dispatchPhase gc target offset rm r p ifr na).1.position = target ∧
       (dispatchPhase gc target offset rm r p ifr na).2.1 = gc.status_code) ∨
      (rm = true ∧
        (dispatchPhase gc target offset rm r p ifr na).1.position = gc.position ∧
        (dispatchPhase gc target offset rm r p ifr na).2.1 = GCSTATUS_FLOATING_POINT_ERROR ∧
        (dispatchPhase gc target offset rm r p ifr na).2.2 =
          (if gc.spindle_direction ≠ 0 then
              [GcAction.spindle_run gc.spindle_direction gc.spindle_speed]
            else [GcAction.spindle_stop])) := by
  unfold dispatchPhase
  rcases na with _ | _ | _ | k
  · dsimp only
    split_ifs <;> simp [*]
  · simp
  · simp
  · simp

theorem dollarPhase_position (l : List Char) (gc : GcState) :
    (dollarPhase l gc).gc.position = gc.position := by
  unfold dollarPhase
  dsimp only
  split_ifs <;> rfl

theorem dollarPhase_acts_harmless (l : List Char) (gc : GcState) :
    ∀ a ∈ (dollarPhase l gc).acts, a.isMotion = false ∧ a.isSpindle = false := by
  unfold dollarPhase
  dsimp only
  split_ifs <;> simp [GcAction.isMotion, GcAction.isSpindle]

theorem dollarPhase_early_error_acts (l : List Char) (gc : GcState) :
    (dollarPhase l gc).early = true → (dollarPhase l gc).status ≠ GCSTATUS_OK →
    (dollarPhase l gc).acts = [] := by
  unfold dollarPhase
  dsimp only
  split_ifs <;> simp [GCSTATUS_OK]

theorem applyTokErr_position (e : Option ℕ) (g : GcState) :
    (applyTokErr e g).position = g.position := by
  cases e <;> rfl

theorem spindle_not_motion (a : GcAction) :
    a.isSpindle = true → a.isMotion = false := by
  cases a <;> simp [GcAction.isSpindle, GcAction.isMotion]


/-- When the main phase returns a nonzero status, the position is untouched
and the only actions possibly added beyond the prefix-phase ones are the
spindle update, which happens exactly when the error is the arc solver's
`GCSTATUS_FLOATING_POINT_ERROR`. -/
theorem mainPhase_error_spec (l : List Char) (dp : DollarRes)
    (h : (mainPhase l dp).2.1 ≠ GCSTATUS_OK) :
    (mainPhase l dp).1.position = dp.gc.position ∧
    (∀ a ∈ (mainPhase l dp).2.2, a ∈ dp.acts ∨ a.isSpindle = true) ∧
    ((mainPhase l dp).2.1 ≠ GCSTATUS_FLOATING_POINT_ERROR →
      (mainPhase l dp).2.2 = dp.acts) := by
  unfold mainPhase at h ⊢
  dsimp only at h ⊢
  set t1 := tokenize (l.drop dp.counter) with ht1
  set a1 := pass1 t1.1 t1.2 { gc := dp.gc, next_action := 0, absolute_override := false }
    with ha1
  set t2 := tokenize l with ht2
  set acc := pass2 a1.absolute_override t2.1
    { gc := a1.gc, offset := fun _ => 0, target := a1.gc.position,
      p := dp.pVal, r := 0, inverse_feed_rate := -1, radius_mode := false } with hacc
  set g2 := applyTokErr t2.2 acc.gc with hg2
  split_ifs at h ⊢ with h1 h2
  · refine ⟨?_, fun a ha => Or.inl ha, fun _ => rfl⟩
    rw [ha1, pass1_position]
  · refine ⟨?_, fun a ha => Or.inl ha, fun _ => rfl⟩
    rw [hg2, applyTokErr_position, hacc, pass2_position]
    rw [ha1, pass1_position]
  · rcases dispatchPhase_cases g2 acc.target acc.offset acc.radius_mode acc.r acc.p
      acc.inverse_feed_rate a1.next_action with hL | hR
    · exfalso
      apply h
      rw [hL.2]
      simpa [GCSTATUS_OK] using h2
    · refine ⟨?_, ?_, ?_⟩
      · rw [hR.2.1, hg2, applyTokErr_position, hacc, pass2_position]
        rw [ha1, pass1_position]
      · intro a ha
        rcases List.mem_append.mp ha with ha0 | hax
        · exact Or.inl ha0
        · right
          rw [hR.2.2.2] at hax
          split_ifs at hax <;> simp only [List.mem_singleton] at hax <;>
            subst hax <;> rfl
      · intro hne
        exact absurd hR.2.2.1 hne

/-- C3: for every input line on which `gc_execute_line` returns a parse or
arc error (`ExpectedCommandLetter`, `BadNumberFormat`, `UnsupportedStatement`
or `FloatingPointError`), the modal state's `position` 3-vector after the
call equals its value before the call. -/
theorem c3_error_position_unchanged (l : List Char) (gc : GcState)
    (h : (gc_execute_line l gc).2.1 = GCSTATUS_EXPECTED_COMMAND_LETTER ∨
      (gc_execute_line l gc).2.1 = GCSTATUS_BAD_NUMBER_FORMAT ∨
      (gc_execute_line l gc).2.1 = GCSTATUS_UNSUPPORTED_STATEMENT ∨
      (gc_execute_line l gc).2.1 = GCSTATUS_FLOATING_POINT_ERROR) :
    (gc_execute_line l gc).1.position = gc.position := by
  have hne : (gc_execute_line l gc).2.1 ≠ GCSTATUS_OK := by
    rcases h with h | h | h | h <;> rw [h] <;> simp [GCSTATUS_OK,
      GCSTATUS_EXPECTED_COMMAND_LETTER, GCSTATUS_BAD_NUMBER_FORMAT,
      GCSTATUS_UNSUPPORTED_STATEMENT, GCSTATUS_FLOATING_POINT_ERROR]
  clear h
  unfold gc_execute_line at hne ⊢
  dsimp only at hne ⊢
  split_ifs at hne ⊢ with hpar hearly
  · exact absurd rfl hne
  · rw [dollarPhase_position]
  · rw [(mainPhase_error_spec l _ hne).1, dollarPhase_position]

/-- C2 (amended): on a non-`Ok` return no motion-executor operation has been
dispatched, and no spindle-actuator operation either unless the status is
`FloatingPointError` — the arc solver's radius check runs after the
per-line spindle update, so a `FloatingPointError` line has already had its
spindle update dispatched. -/
theorem c2_error_no_dispatch (l : List Char) (gc : GcState)
    (h : (gc_execute_line l gc).2.1 ≠ GCSTATUS_OK) :
    (∀ a ∈ (gc_execute_line l gc).2.2, a.isMotion = false) ∧
    ((gc_execute_line l gc).2.1 ≠ GCSTATUS_FLOATING_POINT_ERROR →
      ∀ a ∈ (gc_execute_line l gc).2.2, a.isSpindle = false) := by
  unfold gc_execute_line at h ⊢
  dsimp only at h ⊢
  split_ifs at h ⊢ with hpar hearly
  · exact absurd rfl h
  · have hacts := dollarPhase_early_error_acts l { gc with status_code := GCSTATUS_OK }
      (by simpa using hearly) h
    rw [hacts]
    exact ⟨fun a ha => absurd ha (List.not_mem_nil a), fun _ a ha => absurd ha (List.not_mem_nil a)⟩
  · obtain ⟨-, hmem, hnofpe⟩ := mainPhase_error_spec l _ h
    constructor
    · intro a ha
      rcases hmem a ha with hd | hs
      · exact ((dollarPhase_acts_harmless l _ a hd).1)
      · exact spindle_not_motion a hs
    · intro hne a ha
      rw [hnofpe hne] at ha
      exact (dollarPhase_acts_harmless l _ a ha).2

theorem qtrunc_intCast (z : ℤ) : qtrunc (z : ℚ) = z := by
  unfold qtrunc
  split_ifs <;> simp

/-- On a line with none of the `(`, `/`, `$` prefixes, the prefix phase is a
no-op. -/
theorem dollarPhase_plain (l : List Char) (gc : GcState)
    (h1 : charAt l 0 ≠ '/') (h2 : charAt l 0 ≠ '$') :
    dollarPhase l gc =
      { early := false, gc := gc, status := gc.status_code, counter := 0,
        pVal := 0, acts := [] } := by
  unfold dollarPhase
  dsimp only
  rw [if_neg h2, if_neg h1]

/-- On a line with none of the `(`, `/`, `$` prefixes, `gc_execute_line` is
the two passes plus dispatch, started on a clean status. -/
theorem gc_execute_line_plain (l : List Char) (gc0 : GcState)
    (h0 : charAt l 0 ≠ '(') (h1 : charAt l 0 ≠ '/') (h2 : charAt l 0 ≠ '$') :
    gc_execute_line l gc0 =
      mainPhase l
        { early := false, gc := { gc0 with status_code := GCSTATUS_OK },
          status := GCSTATUS_OK, counter := 0, pVal := 0, acts := [] } := by
  unfold gc_execute_line
  dsimp only
  rw [if_neg h0, dollarPhase_plain l _ h1 h2]
  simp only [Bool.false_eq_true, if_false]

/-- Any sufficient fuel computes the same scan. -/
theorem tokenizeF_fuel (fuel1 : ℕ) : ∀ (fuel2 : ℕ) (l : List Char),
    l.length < fuel1 → l.length < fuel2 → tokenizeF fuel1 l = tokenizeF fuel2 l := by
  induction fuel1 with
  | zero => intro fuel2 l h1 _; exact absurd h1 (Nat.not_lt_zero _)
  | succ f1 ih =>
    intro fuel2 l h1 h2
    cases fuel2 with
    | zero => exact absurd h2 (Nat.not_lt_zero _)
    | succ f2 =>
      cases l with
      | nil => rfl
      | cons c rest =>
        rcases hp : parseNumber rest with _ | ⟨v, n⟩ <;>
          simp only [tokenizeF, hp] <;> split_ifs with hc <;> try rfl
        all_goals
          have hb1 : (rest.drop n).length < f1 := by
            have hd := List.length_drop n rest
            simp only [List.length_cons] at h1
            omega
        all_goals
          have hb2 : (rest.drop n).length < f2 := by
            have hd := List.length_drop n rest
            simp only [List.length_cons] at h2
            omega
        all_goals rw [ih f2 (rest.drop n) hb1 hb2]

/-- `tokenize` on the empty line. -/
theorem tokenize_nil : tokenize ([] : List Char) = ([], none) := rfl

/-- One step of `next_statement` (`gcode.c` lines 453-468), with the fuel
eliminated: check the letter, read the number, recurse past it. -/
theorem tokenize_cons (c : Char) (rest : List Char) :
    tokenize (c :: rest) =
      (if 'A' ≤ c ∧ c ≤ 'Z' then
        match parseNumber rest with
        | none => ([], some GCSTATUS_BAD_NUMBER_FORMAT)
        | some (v, n) =>
          ((c, v) :: (tokenize (rest.drop n)).1, (tokenize (rest.drop n)).2)
      else ([], some GCSTATUS_EXPECTED_COMMAND_LETTER)) := by
  show tokenizeF (rest.length + 1 + 1) (c :: rest) = _
  rcases hp : parseNumber rest with _ | ⟨v, n⟩ <;>
    simp only [tokenizeF, hp] <;> split_ifs with hc <;> try rfl
  all_goals
    have he : tokenizeF (rest.length + 1) (rest.drop n) = tokenize (rest.drop n) := by
      apply tokenizeF_fuel
      · have hd := List.length_drop n rest
        omega
      · omega
  all_goals rw [he]

/-- Without radius mode the dispatch always commits: the position becomes the
target and the incoming status code is returned unchanged. -/
theorem dispatchPhase_not_radius (gc : GcState) (target offset : Fin 3 → ℚ)
    (r p ifr : ℚ) (na : ℕ) :
    (dispatchPhase gc target offset false r p ifr na).1.position = target ∧
    (dispatchPhase gc target offset false r p ifr na).2.1 = gc.status_code := by
  rcases dispatchPhase_cases gc target offset false r p ifr na with h | h
  · exact h
  · exact absurd h.1 (by simp)

/-- The dispatch never changes the unit mode or the positioning mode. -/
theorem dispatchPhase_modes (gc : GcState) (target offset : Fin 3 → ℚ)
    (rm : Bool) (r p ifr : ℚ) (na : ℕ) :
    (dispatchPhase gc target offset rm r p ifr na).1.inches_mode = gc.inches_mode ∧
    (dispatchPhase gc target offset rm r p ifr na).1.absolute_mode = gc.absolute_mode ∧
    (dispatchPhase gc target offset rm r p ifr na).1.spindle_direction = gc.spindle_direction := by
  unfold dispatchPhase
  rcases na with _ | _ | _ | k
  · dsimp only
    split_ifs <;> simp
  · simp
  · simp
  · simp

/-- C3 witness: the line `G99` fails with `UnsupportedStatement` and leaves
the position untouched. -/
theorem c3_error_position_unchanged_witness :
    ((gc_execute_line (['G', '9', '9']) (gc_init 600 600)).2.1 =
      GCSTATUS_UNSUPPORTED_STATEMENT) ∧
    (gc_execute_line (['G', '9', '9']) (gc_init 600 600)).1.position =
      (gc_init 600 600).position := by
  have hst : (gc_execute_line (['G', '9', '9']) (gc_init 600 600)).2.1 =
      GCSTATUS_UNSUPPORTED_STATEMENT := by
    rw [gc_execute_line_plain _ _ (by decide) (by decide) (by decide)]
    unfold mainPhase
    dsimp only
    simp [pass1, applyP1Token, applyTokErr, tokenize_nil, tokenize_cons, parseNumber,
      charAt, natOfDigits, qtrunc, GCSTATUS_OK, GCSTATUS_UNSUPPORTED_STATEMENT]
  exact ⟨hst, c3_error_position_unchanged _ _ (Or.inr (Or.inr (Or.inl hst)))⟩

/-- C2 counterexample: the radius-infeasible arc line `G2X10R1` returns
`FloatingPointError`, yet the spindle actuator HAS been invoked
(`spindle_stop`, dispatched before the arc solver runs) — refuting the claim
that a non-`Ok` line invokes no spindle-actuator operation. -/
theorem c2_counterexample_spindle_on_arc_error :
    (gc_execute_line (['G', '2', 'X', '1', '0', 'R', '1']) (gc_init 600 600)).2.1 =
      GCSTATUS_FLOATING_POINT_ERROR ∧
    GcAction.spindle_stop ∈ (gc_execute_line (['G', '2', 'X', '1', '0', 'R', '1'])
      (gc_init 600 600)).2.2 ∧
    GcAction.isSpindle GcAction.spindle_stop = true := by
  refine ⟨?_, ?_, rfl⟩ <;>
  · rw [gc_execute_line_plain _ _ (by decide) (by decide) (by decide)]
    unfold mainPhase
    dsimp only
    simp [pass1, pass2, applyP1Token, applyP2Token, applyTokErr, tokenize_nil,
      tokenize_cons, parseNumber, charAt, natOfDigits, qtrunc, to_millimeters,
      GCSTATUS_OK, GCSTATUS_FLOATING_POINT_ERROR, dispatchPhase, gc_init,
      Function.update, X_AXIS, Y_AXIS, Z_AXIS] <;> norm_num

/-- C2 witness: at the failing line `G2X10R1` the amended theorem applies and
yields that no motion-executor operation was dispatched. -/
theorem c2_error_no_dispatch_witness :
    ((gc_execute_line (['G', '2', 'X', '1', '0', 'R', '1']) (gc_init 600 600)).2.1 ≠
      GCSTATUS_OK) ∧
    (∀ a ∈ (gc_execute_line (['G', '2', 'X', '1', '0', 'R', '1'])
        (gc_init 600 600)).2.2, a.isMotion = false) := by
  have hst : (gc_execute_line (['G', '2', 'X', '1', '0', 'R', '1'])
      (gc_init 600 600)).2.1 = GCSTATUS_FLOATING_POINT_ERROR := by
    rw [gc_execute_line_plain _ _ (by decide) (by decide) (by decide)]
    unfold mainPhase
    dsimp only
    simp [pass1, pass2, applyP1Token, applyP2Token, applyTokErr, tokenize_nil,
      tokenize_cons, parseNumber, charAt, natOfDigits, qtrunc, to_millimeters,
      GCSTATUS_OK, GCSTATUS_FLOATING_POINT_ERROR, dispatchPhase, gc_init,
      Function.update, X_AXIS, Y_AXIS, Z_AXIS] <;> norm_num
  have hne : (gc_execute_line (['G', '2', 'X', '1', '0', 'R', '1'])
      (gc_init 600 600)).2.1 ≠ GCSTATUS_OK := by
    rw [hst]; decide
  exact ⟨hne, (c2_error_no_dispatch _ _ hne).1⟩

/-- C9 (code bug): the block-delete marker is skipped only in pass 1; pass 2
resets the cursor to index 0 (`counter = 0`, `gcode.c` line 255) and
re-reads the `/`, so EVERY `/`-prefixed line fails with
`ExpectedCommandLetter` and dispatches nothing, while the same line without
the marker succeeds — the code contradicts its own `// ignore block delete`
intent. -/
theorem c9_block_delete_broken :
    (gc_execute_line (['/', 'G', '1', 'X', '5']) (gc_init 600 600)).2.1 =
      GCSTATUS_EXPECTED_COMMAND_LETTER ∧
    (gc_execute_line (['/', 'G', '1', 'X', '5']) (gc_init 600 600)).2.2 = [] ∧
    (gc_execute_line (['G', '1', 'X', '5']) (gc_init 600 600)).2.1 = GCSTATUS_OK := by
  have hd : ∀ gc : GcState, dollarPhase (['/', 'G', '1', 'X', '5']) gc =
      { early := false, gc := gc, status := gc.status_code, counter := 1, pVal := 0,
        acts := [] } := by
    intro gc
    simp [dollarPhase, charAt]
  refine ⟨?_, ?_, ?_⟩
  · unfold gc_execute_line
    dsimp only
    rw [if_neg (by decide), hd]
    dsimp only
    simp [mainPhase, pass1, pass2, applyP1Token, applyTokErr, tokenize_nil, tokenize_cons,
      parseNumber, charAt, natOfDigits, qtrunc, GCSTATUS_OK, GCSTATUS_EXPECTED_COMMAND_LETTER]
  · unfold gc_execute_line
    dsimp only
    rw [if_neg (by decide), hd]
    dsimp only
    simp [mainPhase, pass1, pass2, applyP1Token, applyTokErr, tokenize_nil, tokenize_cons,
      parseNumber, charAt, natOfDigits, qtrunc, GCSTATUS_OK, GCSTATUS_EXPECTED_COMMAND_LETTER]
  · rw [gc_execute_line_plain _ _ (by decide) (by decide) (by decide)]
    unfold mainPhase
    dsimp only
    simp [pass1, pass2, applyP1Token, applyP2Token, applyTokErr, tokenize_nil, tokenize_cons,
      parseNumber, charAt, natOfDigits, qtrunc, to_millimeters, GCSTATUS_OK,
      dispatchPhase, gc_init, X_AXIS, Y_AXIS, Z_AXIS]

/-- C10 (code bug): a well-formed settings line `$4=374.3` reaches
`store_setting(4, 374.3)` exactly once, but the branch is missing its
`return` (`gcode.c` line 202): control falls through into the two passes,
pass 2 re-reads the line from index 0, chokes on `$`, and the call returns
`ExpectedCommandLetter` instead of `Ok`.  A bare `$` dumps the settings and
returns `Ok` as specified. -/
theorem c10_settings_line_falls_through :
    (gc_execute_line (['$', '4', '=', '3', '7', '4', '.', '3']) (gc_init 600 600)).2.1 =
      GCSTATUS_EXPECTED_COMMAND_LETTER ∧
    (gc_execute_line (['$', '4', '=', '3', '7', '4', '.', '3']) (gc_init 600 600)).2.2 =
      [GcAction.store_setting 4 (3743 / 10)] ∧
    (gc_execute_line (['$']) (gc_init 600 600)).2.1 = GCSTATUS_OK ∧
    (gc_execute_line (['$']) (gc_init 600 600)).2.2 = [GcAction.dump_settings] := by
  have hd : ∀ gc : GcState, dollarPhase (['$', '4', '=', '3', '7', '4', '.', '3']) gc =
      { early := false, gc := gc, status := gc.status_code, counter := 8, pVal := 4,
        acts := [GcAction.store_setting 4 (3743 / 10)] } := by
    intro gc
    simp [dollarPhase, charAt, parseNumber, natOfDigits] <;> norm_num
  have hd2 : ∀ gc : GcState, dollarPhase (['$']) gc =
      { early := true, gc := gc, status := GCSTATUS_OK, counter := 1, pVal := 0,
        acts := [GcAction.dump_settings] } := by
    intro gc
    simp [dollarPhase, charAt]
  unfold gc_execute_line
  dsimp only
  rw [if_neg (by decide), if_neg (by decide), hd, hd2]
  dsimp only
  simp [mainPhase, pass1, pass2, applyTokErr, tokenize_nil, tokenize_cons,
    parseNumber, charAt, natOfDigits, GCSTATUS_OK, GCSTATUS_EXPECTED_COMMAND_LETTER]

/-- C1 (amended): for a radius-mode arc dispatch (motion mode `G2`/`G3`,
`radius_mode` set, default next-action, clean status) with in-plane
displacement `(x, y)`: if `x² + y² ≤ 4r²` (i.e. `2·|r| ≥ distance`) and the
displacement is nonzero, the call returns `Ok` and dispatches an `mc_arc`
(whose real-valued descriptor is finite by construction in the exact-real
embedding); if `4r² < x² + y²` (i.e. `2·|r| < distance`), it returns
`FloatingPointError` and dispatches no motion operation.  The claim's
unsigned reading `2·r ≥ distance` is refuted by
`c1_counterexample_negative_radius`; the zero-distance corner is excluded
because there the C code divides by zero (`hypot(0,0)`), failing only when
additionally `r = 0`. -/
theorem c1_radius_mode_feasibility (gc : GcState) (target offset : Fin 3 → ℚ) (r p ifr x y : ℚ)
    (hx : x = target gc.plane_axis_0 - gc.position gc.plane_axis_0)
    (hy : y = target gc.plane_axis_1 - gc.position gc.plane_axis_1)
    (hst : gc.status_code = GCSTATUS_OK)
    (hm : gc.motion_mode = 2 ∨ gc.motion_mode = 3) :
    ((x * x + y * y ≤ 4 * r * r → ¬(x = 0 ∧ y = 0) →
      (dispatchPhase gc target offset true r p ifr 0).2.1 = GCSTATUS_OK ∧
        ∃ a ∈ (dispatchPhase gc target offset true r p ifr 0).2.2, a.isArc = true) ∧
     (4 * r * r < x * x + y * y →
      (dispatchPhase gc target offset true r p ifr 0).2.1 =
          GCSTATUS_FLOATING_POINT_ERROR ∧
        ∀ a ∈ (dispatchPhase gc target offset true r p ifr 0).2.2,
          a.isMotion = false)) := by
  subst hx hy
  have hm4 : ¬gc.motion_mode = 4 := by rcases hm with h | h <;> omega
  have hm01 : ¬(gc.motion_mode = 0 ∨ gc.motion_mode = 1) := by
    rcases hm with h | h <;> omega
  constructor
  · intro h1 h2
    unfold dispatchPhase
    dsimp only
    rw [if_neg hm4, if_neg hm01, if_pos hm, if_pos rfl, if_neg]
    · constructor
      · exact hst
      · exact ⟨_, List.mem_append_right _ (List.mem_cons_self _ _), rfl⟩
    · rintro (hlt | ⟨hxx, hyy, -⟩)
      · nlinarith
      · exact h2 ⟨hxx, hyy⟩
  · intro h3
    unfold dispatchPhase
    dsimp only
    rw [if_neg hm4, if_neg hm01, if_pos hm, if_pos rfl, if_pos (Or.inl (by nlinarith))]
    refine ⟨rfl, ?_⟩
    intro a ha
    split_ifs at ha <;> simp only [List.mem_singleton] at ha <;> subst ha <;> rfl

/-- C1 witness: from the initial state with `G2` motion mode, target
displacement `(6, 0)`: radius 5 is feasible (36 ≤ 100) and dispatches an
arc; radius 1 is infeasible (4 < 36) and fails with `FloatingPointError`
dispatching no motion. -/
theorem c1_radius_mode_feasibility_witness :
    ((dispatchPhase { gc_init 600 600 with motion_mode := 2 }
        (Function.update (fun _ => (0 : ℚ)) 0 6) (fun _ => 0) true 5 0 (-1) 0).2.1 =
        GCSTATUS_OK ∧
      ∃ a ∈ (dispatchPhase { gc_init 600 600 with motion_mode := 2 }
          (Function.update (fun _ => (0 : ℚ)) 0 6) (fun _ => 0) true 5 0 (-1) 0).2.2,
        a.isArc = true) ∧
    ((dispatchPhase { gc_init 600 600 with motion_mode := 2 }
        (Function.update (fun _ => (0 : ℚ)) 0 6) (fun _ => 0) true 1 0 (-1) 0).2.1 =
        GCSTATUS_FLOATING_POINT_ERROR ∧
      ∀ a ∈ (dispatchPhase { gc_init 600 600 with motion_mode := 2 }
          (Function.update (fun _ => (0 : ℚ)) 0 6) (fun _ => 0) true 1 0 (-1) 0).2.2,
        a.isMotion = false) := by
  constructor
  · exact (c1_radius_mode_feasibility _ _ _ 5 0 (-1) 6 0
      (by norm_num [gc_init, X_AXIS, Function.update])
      (by norm_num [gc_init, Y_AXIS, X_AXIS, Function.update])
      rfl (Or.inl rfl)).1 (by norm_num) (by norm_num)
  · exact (c1_radius_mode_feasibility _ _ _ 1 0 (-1) 6 0
      (by norm_num [gc_init, X_AXIS, Function.update])
      (by norm_num [gc_init, Y_AXIS, X_AXIS, Function.update])
      rfl (Or.inl rfl)).2 (by norm_num)

set_option maxHeartbeats 3200000 in
/-- C1 counterexample: the line `G2X6R-5` has `2·r = -10 <` distance `6`, so
the claim as stated demands `FloatingPointError` and no dispatch; the code
squares the radius (the sign only selects the long-way-around center), finds
`4r² = 100 ≥ 36`, returns `Ok` and dispatches the arc. -/
theorem c1_counterexample_negative_radius :
    (2 * (-5 : ℚ) < 6) ∧
    (gc_execute_line (['G', '2', 'X', '6', 'R', '-', '5']) (gc_init 600 600)).2.1 =
      GCSTATUS_OK ∧
    ∃ a ∈ (gc_execute_line (['G', '2', 'X', '6', 'R', '-', '5'])
        (gc_init 600 600)).2.2, a.isArc = true := by
  refine ⟨by norm_num, ?_, ?_⟩ <;>
  · rw [gc_execute_line_plain _ _ (by decide) (by decide) (by decide)]
    unfold mainPhase
    dsimp only
    simp [pass1, pass2, applyP1Token, applyP2Token, applyTokErr, tokenize_nil,
      tokenize_cons, parseNumber, charAt, natOfDigits, qtrunc, to_millimeters,
      GCSTATUS_OK, dispatchPhase, arcActs, gc_init, Function.update,
      X_AXIS, Y_AXIS, Z_AXIS, GcAction.isArc] <;> norm_num

/-- C4: the radius-mode solver computes
`h_x2_div_d = -sqrt(4r² - x² - y²)/hypot(x, y)`, negated once when the arc
is counterclockwise and once more, independently, when the supplied radius
is negative (the two sequential negations of `gcode.c` lines 372 and 395
equal independent sign factors), and the in-plane center offsets are
`(x - y·h)/2` and `(y + x·h)/2`. -/
theorem c4_h_x2_div_d_formulas (r x y : ℚ) (ccw : Bool) :
    h_x2_div_d r x y ccw =
      (if ccw = true then -1 else 1) * (if r < 0 then -1 else 1) *
        (-Real.sqrt (4 * (r : ℝ) * (r : ℝ) - (x : ℝ) * (x : ℝ) - (y : ℝ) * (y : ℝ)) /
          rhypot (x : ℝ) (y : ℝ)) ∧
    arcOffset0 r x y ccw = ((x : ℝ) - (y : ℝ) * h_x2_div_d r x y ccw) / 2 ∧
    arcOffset1 r x y ccw = ((y : ℝ) + (x : ℝ) * h_x2_div_d r x y ccw) / 2 := by
  refine ⟨?_, rfl, rfl⟩
  unfold h_x2_div_d
  dsimp only
  split_ifs <;> ring

/-- `theta` always lands in `[-π, π]`: `atan ∈ (-π/2, π/2)` and the two
fold-backs `π - t` and `-π - t` stay inside the closed interval. -/
theorem gcTheta_range (x y : ℝ) : -Real.pi ≤ gcTheta x y ∧ gcTheta x y ≤ Real.pi := by
  unfold gcTheta
  dsimp only
  have h1 := Real.arctan_lt_pi_div_two (x / |y|)
  have h2 := Real.neg_pi_div_two_lt_arctan (x / |y|)
  have hpi := Real.pi_pos
  split_ifs <;> constructor <;> linarith

/-- C5: if `theta_end < theta_start` a full turn is added before taking the
difference, so the clockwise (`G2`) angular travel is non-negative; for a
counterclockwise arc (`G3`) a full turn is then subtracted, making the
travel non-positive — the sign of the angular travel passed to `mc_arc`
always encodes the arc direction. -/
theorem c5_angular_travel_sign (x0 y0 x1 y1 : ℝ) :
    (gcTheta x1 y1 < gcTheta x0 y0 →
      angularTravelOf (gcTheta x0 y0) (gcTheta x1 y1) false =
        gcTheta x1 y1 + 2 * Real.pi - gcTheta x0 y0) ∧
    0 ≤ angularTravelOf (gcTheta x0 y0) (gcTheta x1 y1) false ∧
    angularTravelOf (gcTheta x0 y0) (gcTheta x1 y1) true ≤ 0 ∧
    angularTravelOf (gcTheta x0 y0) (gcTheta x1 y1) true =
      angularTravelOf (gcTheta x0 y0) (gcTheta x1 y1) false - 2 * Real.pi := by
  obtain ⟨ha, hb⟩ := gcTheta_range x0 y0
  obtain ⟨hc, hd⟩ := gcTheta_range x1 y1
  have hpi := Real.pi_pos
  have e1 : ∀ ts te : ℝ, angularTravelOf ts te false =
      (if te < ts then te + 2 * Real.pi else te) - ts := fun _ _ => rfl
  have e2 : ∀ ts te : ℝ, angularTravelOf ts te true =
      (if te < ts then te + 2 * Real.pi else te) - ts - 2 * Real.pi := fun _ _ => rfl
  rw [e1, e2]
  refine ⟨?_, ?_, ?_, ?_⟩
  · intro h; rw [if_pos h]
  · split_ifs with h
    · linarith
    · rw [not_lt] at h; linarith
  · split_ifs with h
    · linarith
    · linarith
  · ring

/-- C5 witness: with `theta_start = gcTheta 0 1 = 0` and
`theta_end = gcTheta 1 0 = -π < 0`, the full turn is added before the
difference is taken. -/
theorem c5_angular_travel_sign_witness :
    gcTheta 1 0 < gcTheta 0 1 ∧
    angularTravelOf (gcTheta 0 1) (gcTheta 1 0) false =
      gcTheta 1 0 + 2 * Real.pi - gcTheta 0 1 := by
  have hlt : gcTheta 1 0 < gcTheta 0 1 := by
    have hpi := Real.pi_pos
    simp [gcTheta, Real.arctan_zero]
    linarith
  exact ⟨hlt, (c5_angular_travel_sign 0 1 1 0).1 hlt⟩

theorem applyP1Token_ok_status (a : P1Acc) (u : Char × ℚ)
    (hA : a.gc.status_code = 0) (hok : p1StatementOk u) :
    (applyP1Token a u).gc.status_code = 0 := by
  obtain ⟨hG, hM⟩ := hok
  by_cases hg : u.1 = 'G'
  · have hmem := hG hg
    simp only [recognizedG, List.mem_cons, List.not_mem_nil, or_false] at hmem
    rcases hmem with h | h | h | h | h | h | h | h | h | h | h | h | h | h | h | h | h | h <;>
      simp [applyP1Token, hg, h, hA]
  · by_cases hm : u.1 = 'M'
    · have hmem := hM hm
      simp only [recognizedM, List.mem_cons, List.not_mem_nil, or_false] at hmem
      rcases hmem with h | h | h | h | h | h | h | h <;>
        simp [applyP1Token, hg, hm, h, hA]
    · by_cases ht : u.1 = 'T' <;> simp [applyP1Token, hg, hm, ht, hA]

/-- An unrecognized `G` or `M` code FAILs with `UnsupportedStatement` and
changes nothing else. -/
theorem applyP1Token_unsupported (a : P1Acc) (t : Char × ℚ)
    (hbad : (t.1 = 'G' ∧ qtrunc t.2 ∉ recognizedG) ∨
      (t.1 = 'M' ∧ qtrunc t.2 ∉ recognizedM)) :
    applyP1Token a t =
      { a with gc := { a.gc with status_code := GCSTATUS_UNSUPPORTED_STATEMENT } } := by
  rcases hbad with ⟨hg, hmem⟩ | ⟨hm, hmem⟩
  · simp only [recognizedG, List.mem_cons, List.not_mem_nil, or_false, not_or] at hmem
    obtain ⟨n1, n2, n3, n4, n5, n6, n7, n8, n9, n10, n11, n12, n13, n14, n15, n16, n17, n18⟩ :=
      hmem
    simp [applyP1Token, hg, n1, n2, n3, n4, n5, n6, n7, n8, n9, n10, n11, n12, n13, n14,
      n15, n16, n17, n18]
  · simp only [recognizedM, List.mem_cons, List.not_mem_nil, or_false, not_or] at hmem
    obtain ⟨n1, n2, n3, n4, n5, n6, n7, n8⟩ := hmem
    have hg : t.1 ≠ 'G' := by rw [hm]; decide
    simp [applyP1Token, hg, hm, n1, n2, n3, n4, n5, n6, n7, n8]

/-- Pass 1 over a prefix of recognized statements just folds their mutations
into the accumulator. -/
theorem pass1_ok_initial (ts1 : List (Char × ℚ)) :
    ∀ (rest : List (Char × ℚ)) (e : Option ℕ) (a : P1Acc),
    (∀ u ∈ ts1, p1StatementOk u) → a.gc.status_code = 0 →
    pass1 (ts1 ++ rest) e a = pass1 rest e (ts1.foldl applyP1Token a) := by
  induction ts1 with
  | nil => intro rest e a _ _; rfl
  | cons u ts1 ih =>
    intro rest e a hok hA
    show (if (applyP1Token a u).gc.status_code ≠ 0 then applyP1Token a u
      else pass1 (ts1 ++ rest) e (applyP1Token a u)) = _
    have h0 : (applyP1Token a u).gc.status_code = 0 :=
      applyP1Token_ok_status a u hA (hok u (by simp))
    rw [if_neg (by simp [h0])]
    rw [ih rest e (applyP1Token a u) (fun v hv => hok v (by simp [hv])) h0]
    rfl

/-- C8: a line whose statements are recognized up to some `G`/`M` statement
with an unrecognized code returns `UnsupportedStatement`, dispatches no
collaborator call, and keeps every modal mutation made by the earlier
statements applied (the fold of `applyP1Token` over the prefix): pass 1 is
not atomic and nothing is rolled back. -/
theorem c8_unsupported_statement_partial_pass1 (l : List Char) (gc0 : GcState)
    (ts1 : List (Char × ℚ)) (t : Char × ℚ) (ts2 : List (Char × ℚ)) (e : Option ℕ)
    (htok : tokenize l = (ts1 ++ t :: ts2, e))
    (hok : ∀ u ∈ ts1, p1StatementOk u)
    (hbad : (t.1 = 'G' ∧ qtrunc t.2 ∉ recognizedG) ∨
      (t.1 = 'M' ∧ qtrunc t.2 ∉ recognizedM))
    (h0 : charAt l 0 ≠ '(') (h1 : charAt l 0 ≠ '/') (h2 : charAt l 0 ≠ '$') :
    gc_execute_line l gc0 =
      ({ (ts1.foldl applyP1Token
            { gc := { gc0 with status_code := GCSTATUS_OK }, next_action := 0,
              absolute_override := false }).gc with
          status_code := GCSTATUS_UNSUPPORTED_STATEMENT },
        GCSTATUS_UNSUPPORTED_STATEMENT, []) := by
  rw [gc_execute_line_plain l gc0 h0 h1 h2]
  unfold mainPhase
  dsimp only
  rw [List.drop_zero, htok]
  dsimp only
  rw [pass1_ok_initial ts1 (t :: ts2) e _ hok rfl]
  have hstep : pass1 (t :: ts2) e
      (ts1.foldl applyP1Token
        { gc := { gc0 with status_code := GCSTATUS_OK }, next_action := 0,
          absolute_override := false }) =
      { (ts1.foldl applyP1Token
          { gc := { gc0 with status_code := GCSTATUS_OK }, next_action := 0,
            absolute_override := false }) with
        gc := { (ts1.foldl applyP1Token
            { gc := { gc0 with status_code := GCSTATUS_OK }, next_action := 0,
              absolute_override := false }).gc with
          status_code := GCSTATUS_UNSUPPORTED_STATEMENT } } := by
    show (if (applyP1Token _ t).gc.status_code ≠ 0 then applyP1Token _ t
      else pass1 ts2 e (applyP1Token _ t)) = _
    rw [applyP1Token_unsupported _ t hbad]
    rw [if_pos (by simp [GCSTATUS_UNSUPPORTED_STATEMENT])]
  rw [hstep]
  dsimp only
  rw [if_pos (by simp [GCSTATUS_UNSUPPORTED_STATEMENT])]

/-- C8 witness: the line `G1G99X5` tokenizes into the recognized `G1`
followed by the unrecognized `G99`; the call returns
`UnsupportedStatement`, dispatches nothing, and the state is the `G1`
mutation (motion mode set to linear) with the failure status. -/
theorem c8_unsupported_statement_partial_pass1_witness :
    tokenize (['G', '1', 'G', '9', '9', 'X', '5']) =
      ([(('G' : Char), (1 : ℚ))] ++ (('G' : Char), (99 : ℚ)) :: [(('X' : Char), (5 : ℚ))],
        none) ∧
    gc_execute_line (['G', '1', 'G', '9', '9', 'X', '5']) (gc_init 600 600) =
      ({ ([(('G' : Char), (1 : ℚ))].foldl applyP1Token
            { gc := { gc_init 600 600 with status_code := GCSTATUS_OK }, next_action := 0,
              absolute_override := false }).gc with
          status_code := GCSTATUS_UNSUPPORTED_STATEMENT },
        GCSTATUS_UNSUPPORTED_STATEMENT, []) := by
  have htok : tokenize (['G', '1', 'G', '9', '9', 'X', '5']) =
      ([(('G' : Char), (1 : ℚ))] ++ (('G' : Char), (99 : ℚ)) :: [(('X' : Char), (5 : ℚ))],
        none) := by
    simp [tokenize_cons, tokenize_nil, parseNumber, natOfDigits, charAt]
  refine ⟨htok, c8_unsupported_statement_partial_pass1 _ _ _ _ _ _ htok ?_ ?_
    (by decide) (by decide) (by decide)⟩
  · intro u hu
    simp only [List.mem_singleton] at hu
    subst hu
    constructor
    · intro _
      norm_num [recognizedG, qtrunc]
    · intro h
      exact absurd h (by decide)
  · left
    refine ⟨rfl, ?_⟩
    norm_num [recognizedG, qtrunc]

/-- Executing `G20` sets inches mode and leaves the positioning mode
untouched, from any state. -/
theorem c7_key1 (gcA : GcState) :
    (gc_execute_line (['G', '2', '0']) gcA).1.inches_mode = true ∧
    (gc_execute_line (['G', '2', '0']) gcA).1.absolute_mode = gcA.absolute_mode := by
  rw [gc_execute_line_plain _ _ (by decide) (by decide) (by decide)]
  unfold mainPhase
  dsimp only
  rw [List.drop_zero]
  have ht : tokenize (['G', '2', '0']) = ([(('G' : Char), (20 : ℚ))], none) := by
    simp [tokenize_cons, tokenize_nil, parseNumber, natOfDigits, charAt]
  rw [ht]
  have hq : qtrunc (20 : ℚ) = 20 := by norm_num [qtrunc]
  have hp1 : pass1 [(('G' : Char), (20 : ℚ))] none
      { gc := { gcA with status_code := GCSTATUS_OK }, next_action := 0,
        absolute_override := false } =
      { gc := { gcA with status_code := GCSTATUS_OK, inches_mode := true },
        next_action := 0, absolute_override := false } := by
    simp [pass1, applyP1Token, hq, GCSTATUS_OK]
  rw [hp1]
  dsimp only
  rw [if_neg (by simp [applyTokErr, GCSTATUS_OK])]
  have hp2 : ∀ acc : P2Acc, pass2 false [(('G' : Char), (20 : ℚ))] acc = acc := by
    intro acc
    simp [pass2, applyP2Token]
  rw [hp2]
  dsimp only
  rw [if_neg (by simp [applyTokErr, GCSTATUS_OK])]
  constructor
  · rw [(dispatchPhase_modes _ _ _ _ _ _ _ _).1]
    rfl
  · rw [(dispatchPhase_modes _ _ _ _ _ _ _ _).2.1]
    rfl

/-- In inches mode and absolute mode, the line `X1` commits
`1 * INCHES_PER_MM = 25.4` to the X axis. -/
theorem c7_key2 (gcB : GcState) (hi : gcB.inches_mode = true)
    (ha : gcB.absolute_mode = true) :
    (gc_execute_line (['X', '1']) gcB).1.position 0 = 254 / 10 := by
  rw [gc_execute_line_plain _ _ (by decide) (by decide) (by decide)]
  unfold mainPhase
  dsimp only
  rw [List.drop_zero]
  have ht : tokenize (['X', '1']) = ([(('X' : Char), (1 : ℚ))], none) := by
    simp [tokenize_cons, tokenize_nil, parseNumber, natOfDigits, charAt]
  rw [ht]
  have hp1 : ∀ a : P1Acc, pass1 [(('X' : Char), (1 : ℚ))] none a = a := by
    intro a
    simp [pass1, applyP1Token]
  rw [hp1]
  dsimp only
  rw [if_neg (by simp [applyTokErr, GCSTATUS_OK])]
  have hp2 : ∀ acc : P2Acc, acc.gc.inches_mode = true → acc.gc.absolute_mode = true →
      pass2 false [(('X' : Char), (1 : ℚ))] acc =
        { acc with target := Function.update acc.target 0 (254 / 10) } := by
    intro acc hi2 ha2
    simp [pass2, applyP2Token, hi2, ha2, to_millimeters, INCHES_PER_MM]
  rw [hp2 _ (by simpa using hi) (by simpa using ha)]
  dsimp only
  rw [if_neg (by simp [applyTokErr, GCSTATUS_OK])]
  rw [(dispatchPhase_not_radius _ _ _ _ _ _ _).1]
  simp [Function.update]

/-- C7: after `G20`, a line with literal `X1` in absolute mode stores
`25.4` (the inches-to-millimeters factor, `INCHES_PER_MM` modelled from the
spec) in `position[X]`, not `1`; `to_millimeters` multiplies by the factor
exactly once in inches mode and passes values through unchanged in
millimeter mode. -/
theorem c7_inches_mode_conversion (gc0 : GcState) (habs : gc0.absolute_mode = true) :
    (gc_execute_line (['X', '1']) ((gc_execute_line (['G', '2', '0']) gc0).1)).1.position 0 =
      254 / 10 ∧
    (∀ v : ℚ, to_millimeters true v = v * INCHES_PER_MM) ∧
    (∀ v : ℚ, to_millimeters false v = v) := by
  refine ⟨?_, fun v => rfl, fun v => rfl⟩
  obtain ⟨hi, habs2⟩ := c7_key1 gc0
  exact c7_key2 _ hi (by rw [habs2, habs])

/-- C7 witness: from the freshly initialized state (absolute mode set by
`gc_init`), `G20` then `X1` leaves `position[X] = 25.4`. -/
theorem c7_inches_mode_conversion_witness :
    (gc_init 600 600).absolute_mode = true ∧
    (gc_execute_line (['X', '1'])
        ((gc_execute_line (['G', '2', '0']) (gc_init 600 600)).1)).1.position 0 =
      254 / 10 :=
  ⟨rfl, (c7_inches_mode_conversion (gc_init 600 600) rfl).1⟩

theorem applyP2Token_target_axis (ao : Bool) (a : P2Acc) (t : Char × ℚ) (i : Fin 3) :
    (applyP2Token ao a t).target i =
      if t.1 = axisChar i then
        (if a.gc.absolute_mode = true ∨ ao = true then to_millimeters a.gc.inches_mode t.2
         else a.target i + to_millimeters a.gc.inches_mode t.2)
      else a.target i := by
  simp only [applyP2Token, apply_ite (fun x : P2Acc => x.target i), Function.update_apply]
  by_cases hi : t.1 = axisChar i
  · rw [if_pos hi]
    fin_cases i <;> simp [axisChar] at hi <;> simp [hi]
  · rw [if_neg hi]
    fin_cases i <;> simp [axisChar] at hi <;> simp [hi]

theorem applyP2Token_allowed_gc (ao : Bool) (a : P2Acc) (t : Char × ℚ)
    (h : letterAllowedC6 t) :
    (applyP2Token ao a t).gc = a.gc ∧
    (applyP2Token ao a t).radius_mode = a.radius_mode := by
  constructor <;> rcases h with h | h | h | h <;> unfold applyP2Token <;>
    simp [h] <;> split_ifs <;> rfl

theorem pass2_c6_gc (ao : Bool) : ∀ (ts : List (Char × ℚ)) (a : P2Acc),
    (∀ t ∈ ts, letterAllowedC6 t) →
    (pass2 ao ts a).gc = a.gc ∧ (pass2 ao ts a).radius_mode = a.radius_mode := by
  intro ts
  induction ts with
  | nil => intro a _; exact ⟨rfl, rfl⟩
  | cons t ts ih =>
    intro a h
    obtain ⟨h1, h2⟩ := applyP2Token_allowed_gc ao a t (h t (by simp))
    obtain ⟨h3, h4⟩ := ih (applyP2Token ao a t) (fun u hu => h u (by simp [hu]))
    exact ⟨h3.trans h1, h4.trans h2⟩

theorem applyP1Token_c6 (a : P1Acc) (t : Char × ℚ) (h : tokenAllowedC6 t) :
    (applyP1Token a t).gc.status_code = a.gc.status_code ∧
    (applyP1Token a t).gc.absolute_mode = a.gc.absolute_mode ∧
    (applyP1Token a t).gc.inches_mode = a.gc.inches_mode ∧
    (applyP1Token a t).next_action = a.next_action ∧
    (applyP1Token a t).absolute_override = a.absolute_override := by
  rcases h with ⟨hg, hc | hc⟩ | h | h | h <;> simp_all [applyP1Token]

theorem pass1_c6 : ∀ (ts : List (Char × ℚ)) (a : P1Acc),
    (∀ t ∈ ts, tokenAllowedC6 t) → a.gc.status_code = 0 →
    (pass1 ts none a).gc.status_code = 0 ∧
    (pass1 ts none a).gc.absolute_mode = a.gc.absolute_mode ∧
    (pass1 ts none a).gc.inches_mode = a.gc.inches_mode ∧
    (pass1 ts none a).next_action = a.next_action ∧
    (pass1 ts none a).absolute_override = a.absolute_override := by
  intro ts
  induction ts with
  | nil => intro a _ hst; exact ⟨hst, rfl, rfl, rfl, rfl⟩
  | cons t ts ih =>
    intro a h hst
    obtain ⟨h1, h2, h3, h4, h5⟩ := applyP1Token_c6 a t (h t (by simp))
    have hst2 : (applyP1Token a t).gc.status_code = 0 := h1.trans hst
    have hstep : pass1 (t :: ts) none a = pass1 ts none (applyP1Token a t) := by
      show (if (applyP1Token a t).gc.status_code ≠ 0 then applyP1Token a t
        else pass1 ts none (applyP1Token a t)) = _
      rw [if_neg (by simp [hst2])]
    rw [hstep]
    obtain ⟨g1, g2, g3, g4, g5⟩ := ih (applyP1Token a t)
      (fun u hu => h u (by simp [hu])) hst2
    exact ⟨g1, g2.trans h2, g3.trans h3, g4.trans h4, g5.trans h5⟩

theorem tokenAllowed_letter {t : Char × ℚ} (h : tokenAllowedC6 t) : letterAllowedC6 t := by
  rcases h with ⟨hg, _⟩ | h | h | h
  · exact Or.inl hg
  · exact Or.inr (Or.inl h)
  · exact Or.inr (Or.inr (Or.inl h))
  · exact Or.inr (Or.inr (Or.inr h))

theorem pass2_target_none (ao : Bool) (i : Fin 3) : ∀ (ts : List (Char × ℚ)) (a : P2Acc),
    ts.filter (fun u => decide (u.1 = axisChar i)) = [] →
    (pass2 ao ts a).target i = a.target i := by
  intro ts
  induction ts with
  | nil => intro a _; rfl
  | cons t ts ih =>
    intro a h
    rw [List.filter_cons] at h
    by_cases ht : t.1 = axisChar i
    · rw [if_pos (by simp [ht])] at h
      exact absurd h (by simp)
    · rw [if_neg (by simp [ht])] at h
      have hstep : pass2 ao (t :: ts) a = pass2 ao ts (applyP2Token ao a t) := rfl
      rw [hstep, ih _ h, applyP2Token_target_axis, if_neg ht]

theorem pass2_target_one (ao : Bool) (i : Fin 3) (v : ℚ) : ∀ (ts : List (Char × ℚ)) (a : P2Acc),
    (∀ t ∈ ts, letterAllowedC6 t) →
    ts.filter (fun u => decide (u.1 = axisChar i)) = [(axisChar i, v)] →
    (pass2 ao ts a).target i =
      (if a.gc.absolute_mode = true ∨ ao = true then to_millimeters a.gc.inches_mode v
       else a.target i + to_millimeters a.gc.inches_mode v) := by
  intro ts
  induction ts with
  | nil => intro a _ h; exact absurd h (by simp)
  | cons t ts ih =>
    intro a hall h
    rw [List.filter_cons] at h
    have hstep : pass2 ao (t :: ts) a = pass2 ao ts (applyP2Token ao a t) := rfl
    by_cases ht : t.1 = axisChar i
    · rw [if_pos (by simp [ht])] at h
      simp only [List.cons.injEq] at h
      obtain ⟨h1, h2⟩ := h
      have hv : t.2 = v := by rw [h1]
      rw [hstep, pass2_target_none ao i ts _ h2, applyP2Token_target_axis, if_pos ht, hv]
    · rw [if_neg (by simp [ht])] at h
      have hgc := applyP2Token_allowed_gc ao a t (hall t (by simp))
      have htar := applyP2Token_target_axis ao a t i
      rw [if_neg ht] at htar
      rw [hstep, ih _ (fun u hu => hall u (by simp [hu])) h, hgc.1, htar]

/-- C6: on a plain line (no `(`, `/`, `$` prefix) that tokenizes cleanly
into only `G0`/`G1` words and `X`/`Y`/`Z` words, `gc_execute_line` returns
Ok, and the committed position resolves per axis: an axis with no word
keeps the pre-call position; an axis whose single word carries value `v`
becomes the unit-converted value in absolute mode, and the pre-call
position plus the unit-converted value in relative mode.  (Such a line
cannot contain `G53`, so the per-line absolute override is false here; its
mechanism is the `absolute_mode = true ∨ ao = true` disjunct of
`applyP2Token_target_axis`.) -/
theorem c6_linear_target_resolution (l : List Char) (gc0 : GcState)
    (ts : List (Char × ℚ))
    (h0 : charAt l 0 ≠ '(') (h1 : charAt l 0 ≠ '/') (h2 : charAt l 0 ≠ '$')
    (htok : tokenize l = (ts, none))
    (hall : ∀ t ∈ ts, tokenAllowedC6 t) :
    (gc_execute_line l gc0).2.1 = GCSTATUS_OK ∧
    ∀ i : Fin 3,
      (ts.filter (fun u => decide (u.1 = axisChar i)) = [] →
        (gc_execute_line l gc0).1.position i = gc0.position i) ∧
      (∀ v : ℚ, ts.filter (fun u => decide (u.1 = axisChar i)) = [(axisChar i, v)] →
        (gc_execute_line l gc0).1.position i =
          (if gc0.absolute_mode = true then to_millimeters gc0.inches_mode v
           else gc0.position i + to_millimeters gc0.inches_mode v)) := by
  rw [gc_execute_line_plain l gc0 h0 h1 h2]
  unfold mainPhase
  dsimp only
  rw [List.drop_zero, htok]
  dsimp only
  set a1 := pass1 ts none
    { gc := { gc0 with status_code := GCSTATUS_OK }, next_action := 0,
      absolute_override := false } with ha1
  have hAfacts := pass1_c6 ts
    { gc := { gc0 with status_code := GCSTATUS_OK }, next_action := 0,
      absolute_override := false } hall rfl
  rw [← ha1] at hAfacts
  obtain ⟨hA0, hAabs, hAinch, hAna, hAao⟩ := hAfacts
  have hAabs' : a1.gc.absolute_mode = gc0.absolute_mode := hAabs
  have hAinch' : a1.gc.inches_mode = gc0.inches_mode := hAinch
  have hAao' : a1.absolute_override = false := hAao
  have hApos : a1.gc.position = gc0.position := by rw [ha1, pass1_position]
  rw [if_neg (by simp [hA0]), hAao']
  set acc := pass2 false ts
    { gc := a1.gc, offset := fun _ => 0, target := a1.gc.position,
      p := 0, r := 0, inverse_feed_rate := -1, radius_mode := false } with hacc
  have hBfacts := pass2_c6_gc false ts
    { gc := a1.gc, offset := fun _ => 0, target := a1.gc.position,
      p := 0, r := 0, inverse_feed_rate := -1, radius_mode := false }
    (fun t ht => tokenAllowed_letter (hall t ht))
  rw [← hacc] at hBfacts
  have hBgc : acc.gc = a1.gc := hBfacts.1
  have hBrm : acc.radius_mode = false := hBfacts.2
  have hBs : acc.gc.status_code = 0 := by rw [hBgc]; exact hA0
  have hTE : applyTokErr none acc.gc = acc.gc := rfl
  rw [hTE, if_neg (by simp [hBs]), hBrm]
  obtain ⟨hdp, hds⟩ := dispatchPhase_not_radius acc.gc acc.target acc.offset
    acc.r acc.p acc.inverse_feed_rate a1.next_action
  constructor
  · dsimp only
    rw [hds, hBs]
    rfl
  · intro i
    constructor
    · intro hf
      dsimp only
      rw [hdp, hacc, pass2_target_none false i ts _ hf]
      show a1.gc.position i = gc0.position i
      rw [hApos]
    · intro v hf
      dsimp only
      rw [hdp, hacc,
        pass2_target_one false i v ts _ (fun t ht => tokenAllowed_letter (hall t ht)) hf]
      show (if a1.gc.absolute_mode = true ∨ false = true then to_millimeters a1.gc.inches_mode v
            else a1.gc.position i + to_millimeters a1.gc.inches_mode v) = _
      rw [hAabs', hAinch', hApos]
      simp only [Bool.false_eq_true, or_false]

/-- C6 witness: the line `G1X10Z5` from the freshly initialized state
(absolute millimeter mode at the origin) returns Ok and commits position
`(10, 0, 5)`: worded axes are replaced, the unworded `Y` axis keeps its
pre-call value. -/
theorem c6_linear_target_resolution_witness :
    (gc_execute_line (['G', '1', 'X', '1', '0', 'Z', '5']) (gc_init 600 600)).2.1 =
      GCSTATUS_OK ∧
    (gc_execute_line (['G', '1', 'X', '1', '0', 'Z', '5']) (gc_init 600 600)).1.position 0 =
      10 ∧
    (gc_execute_line (['G', '1', 'X', '1', '0', 'Z', '5']) (gc_init 600 600)).1.position 1 =
      0 ∧
    (gc_execute_line (['G', '1', 'X', '1', '0', 'Z', '5']) (gc_init 600 600)).1.position 2 =
      5 := by
  have htok : tokenize (['G', '1', 'X', '1', '0', 'Z', '5']) =
      ([(('G' : Char), (1 : ℚ)), (('X' : Char), (10 : ℚ)), (('Z' : Char), (5 : ℚ))],
        none) := by
    simp [tokenize_cons, tokenize_nil, parseNumber, natOfDigits, charAt]
  have hall : ∀ t ∈ [(('G' : Char), (1 : ℚ)), (('X' : Char), (10 : ℚ)),
      (('Z' : Char), (5 : ℚ))], tokenAllowedC6 t := by
    intro t ht
    fin_cases ht
    · exact Or.inl ⟨rfl, Or.inr (by norm_num [qtrunc])⟩
    · exact Or.inr (Or.inl rfl)
    · exact Or.inr (Or.inr (Or.inr rfl))
  obtain ⟨hs, hp⟩ := c6_linear_target_resolution (['G', '1', 'X', '1', '0', 'Z', '5'])
    (gc_init 600 600)
    [(('G' : Char), (1 : ℚ)), (('X' : Char), (10 : ℚ)), (('Z' : Char), (5 : ℚ))]
    (by decide) (by decide) (by decide) htok hall
  refine ⟨hs, ?_, ?_, ?_⟩
  · have h := (hp 0).2 10 (by simp [axisChar])
    rw [h]
    simp [gc_init, to_millimeters]
  · have h := (hp 1).1 (by simp [axisChar])
    rw [h]
    rfl
  · have h := (hp 2).2 5 (by simp [axisChar])
    rw [h]
    simp [gc_init, to_millimeters]
